import Mathlib

/-!
Shallow embedding of the `AdaptiveVolumeControl` engine
(src/project/AdaptiveVolumeControl.{h,cpp}).

Floating-point values (`float` in the source) are modelled as exact
rationals (`ℚ`); the wall clock (`std::chrono::system_clock::now()`) is
modelled as an explicit `now : ℚ` argument threaded into `update`, so a
time point is a rational number of seconds.  Console output is ignored.
All definitions follow the member functions of the class line by line.
-/

namespace AVC

/-- `enum class Mode` (AdaptiveVolumeControl.h). -/
inductive Mode where
  | ECO
  | COMFORT
  | SPORTS
deriving DecidableEq, Repr

/-- `enum class VolumeControlType` (AdaptiveVolumeControl.h). -/
inductive VolumeControlType where
  | ADAPTIVE
  | MANUAL
deriving DecidableEq, Repr

/-- `static constexpr float DEFAULT_VOLUME = 25.0f`. -/
def DEFAULT_VOLUME : ℚ := 25

/-- `static constexpr float MAX_VOLUME = 100.0f` (manual ceiling). -/
def MAX_VOLUME : ℚ := 100

/-- `static constexpr float MAX_ADAPTIVE_VOLUME = 80.0f` (automatic ceiling). -/
def MAX_ADAPTIVE_VOLUME : ℚ := 80

/-- `static constexpr float MIN_VOLUME = 0.0f` (floor). -/
def MIN_VOLUME : ℚ := 0

/-- `static constexpr float SMOOTH_FACTOR = 0.3f`. -/
def SMOOTH_FACTOR : ℚ := 3/10

/-- `static constexpr float HORN_DUCK_MULTIPLIER = 0.6f`. -/
def HORN_DUCK_MULTIPLIER : ℚ := 3/5

/-- `static constexpr double HORN_DUCK_DURATION = 0.5` (seconds). -/
def HORN_DUCK_DURATION : ℚ := 1/2

/-- The member variables of class `AdaptiveVolumeControl`
(AdaptiveVolumeControl.h, lines 84-99). -/
structure AVCState where
  speed : ℤ
  previousSpeed : ℤ
  cabinNoise : ℤ
  reverseGear : Bool
  hornActive : Bool
  navSpeaking : Bool
  mode : Mode
  controlType : VolumeControlType
  manualVolume : ℤ
  targetVolume : ℚ
  currentVolume : ℚ
  hornDuckStartTime : ℚ
  hornDuckActive : Bool
deriving DecidableEq, Repr

/-- The constructor `AdaptiveVolumeControl::AdaptiveVolumeControl()`
(AdaptiveVolumeControl.cpp, lines 25-31); `t0` models the time point
`system_clock::now()` taken at construction. -/
def initState (t0 : ℚ) : AVCState :=
  { speed := 0
    previousSpeed := 0
    cabinNoise := 30
    reverseGear := false
    hornActive := false
    navSpeaking := false
    mode := Mode.COMFORT
    controlType := VolumeControlType.ADAPTIVE
    manualVolume := 25
    targetVolume := DEFAULT_VOLUME
    currentVolume := DEFAULT_VOLUME
    hornDuckStartTime := t0
    hornDuckActive := false }

/-- `AdaptiveVolumeControl::handleHornDucking(bool newHornActive)`
(AdaptiveVolumeControl.cpp, lines 73-94).  Note that at the point this is
called from `update`, the member `hornActive` has already been overwritten
with `newHornActive` (update line 56 precedes the call at line 63), which
the embedding reproduces faithfully. -/
def handleHornDucking (s : AVCState) (newHornActive : Bool) (now : ℚ) : AVCState :=
  if newHornActive then
    { s with hornDuckActive := true, hornDuckStartTime := now }
  else if s.hornActive then
    { s with hornDuckStartTime := now, hornDuckActive := true }
  else if s.hornDuckActive then
    (if now - s.hornDuckStartTime ≥ HORN_DUCK_DURATION then
      { s with hornDuckActive := false }
    else s)
  else s

/-- `AdaptiveVolumeControl::handleNavigationDucking(bool newNavSpeaking)`
(AdaptiveVolumeControl.cpp, lines 100-104). -/
def handleNavigationDucking (s : AVCState) (newNavSpeaking : Bool) : AVCState :=
  { s with navSpeaking := newNavSpeaking }

/-- The body of `AdaptiveVolumeControl::applyVolumeModifiers` up to but not
including the final clamp (AdaptiveVolumeControl.cpp, lines 111-140): the
horn-duck, navigation, reverse-gear and deceleration multipliers applied in
source order to the running value. -/
def applyVolumeModifiersRaw (s : AVCState) (baseVolume : ℚ) : ℚ :=
  let v1 := if s.hornDuckActive then baseVolume * HORN_DUCK_MULTIPLIER else baseVolume
  let v2 := if s.navSpeaking then v1 * (1/2) else v1
  let v3 := if s.reverseGear then v2 * (1/4) else v2
  if !s.reverseGear then
    (if s.previousSpeed - s.speed > 10 then v3 * (1/2)
     else if s.speed < s.previousSpeed then v3 * (9/10)
     else v3)
  else v3

/-- The final clamp of `applyVolumeModifiers`
(AdaptiveVolumeControl.cpp, lines 142-144):
`if(baseVolume < MIN_VOLUME) ...; if(baseVolume > MAX_ADAPTIVE_VOLUME) ...`. -/
def clampVolume (v : ℚ) : ℚ :=
  let w := if v < MIN_VOLUME then MIN_VOLUME else v
  if w > MAX_ADAPTIVE_VOLUME then MAX_ADAPTIVE_VOLUME else w

/-- `AdaptiveVolumeControl::applyVolumeModifiers(float baseVolume)`
(AdaptiveVolumeControl.cpp, lines 111-147): the modifier pipeline followed
by the clamp to `[MIN_VOLUME, MAX_ADAPTIVE_VOLUME]`. -/
def applyVolumeModifiers (s : AVCState) (baseVolume : ℚ) : ℚ :=
  clampVolume (applyVolumeModifiersRaw s baseVolume)

/-- `AdaptiveVolumeControl::calculateTargetVolume()`
(AdaptiveVolumeControl.cpp, lines 152-173). -/
def calculateTargetVolume (s : AVCState) : AVCState :=
  if s.controlType = VolumeControlType.MANUAL then
    { s with targetVolume := min (s.manualVolume : ℚ) MAX_VOLUME }
  else
    let b0 : ℚ := 25
    let b1 := if s.speed > 70 then b0 + 15
      else if s.speed > 30 then b0 + 10
      else if s.speed > 0 then b0 + 5
      else b0
    let b2 := b1 + (s.cabinNoise : ℚ) * (1/5)
    let b3 := match s.mode with
      | Mode.ECO => b2 * (4/5)
      | Mode.COMFORT => b2
      | Mode.SPORTS => b2 * (6/5)
    { s with targetVolume := applyVolumeModifiers s b3 }

/-- `AdaptiveVolumeControl::update(...)` (AdaptiveVolumeControl.cpp,
lines 44-67), with `now` the time point `system_clock::now()` sampled inside
`handleHornDucking` during this call.  Mirrors the source order: context
fields are overwritten first (`manualVolume` only when the new control type
is `MANUAL`, line 61), then `handleHornDucking`, `handleNavigationDucking`
and `calculateTargetVolume` run on the updated state. -/
def update (s : AVCState) (newSpeed newNoise : ℤ)
    (newReverseGear newHornActive newNavSpeaking : Bool) (newMode : Mode)
    (newControlType : VolumeControlType) (newManualVolume : ℤ) (now : ℚ) : AVCState :=
  let s1 := { s with
    previousSpeed := s.speed
    speed := newSpeed
    cabinNoise := newNoise
    reverseGear := newReverseGear
    hornActive := newHornActive
    navSpeaking := newNavSpeaking
    mode := newMode
    controlType := newControlType }
  let s2 := if newControlType = VolumeControlType.MANUAL then
    { s1 with manualVolume := newManualVolume } else s1
  let s3 := handleHornDucking s2 newHornActive now
  let s4 := handleNavigationDucking s3 newNavSpeaking
  calculateTargetVolume s4

/-- `AdaptiveVolumeControl::smoothVolumeTransition()`
(AdaptiveVolumeControl.cpp, lines 178-183):
`currentVolume += (targetVolume - currentVolume) * SMOOTH_FACTOR`. -/
def smoothVolumeTransition (s : AVCState) : AVCState :=
  { s with currentVolume := s.currentVolume + (s.targetVolume - s.currentVolume) * SMOOTH_FACTOR }

/-- The `while` loop of `AdaptiveVolumeControl::printAndSmooth`
(AdaptiveVolumeControl.cpp, lines 222-226), with explicit fuel:
while `|currentVolume - targetVolume| > 0.5`, take one smoothing step. -/
def printAndSmoothAux : ℕ → AVCState → AVCState
  | 0, s => s
  | n + 1, s =>
    if |s.currentVolume - s.targetVolume| > 1/2 then
      printAndSmoothAux n (smoothVolumeTransition s)
    else s

/-- `AdaptiveVolumeControl::printAndSmooth` (AdaptiveVolumeControl.cpp,
lines 220-230): run the smoothing loop, then `currentVolume = targetVolume`
(line 227). -/
def printAndSmooth (fuel : ℕ) (s : AVCState) : AVCState :=
  let s' := printAndSmoothAux fuel s
  { s' with currentVolume := s'.targetVolume }

/-- `getCurrentVolume()` (AdaptiveVolumeControl.h, line 75). -/
def getCurrentVolume (s : AVCState) : ℚ := s.currentVolume

/-- `getTargetVolume()` (AdaptiveVolumeControl.h, line 81). -/
def getTargetVolume (s : AVCState) : ℚ := s.targetVolume

/-- The states of the engine reachable from a freshly constructed object by
any sequence of `update` calls (arbitrary inputs and clock readings),
single smoothing steps, and `printAndSmooth` runs. -/
inductive Reachable : AVCState → Prop where
  | init (t0 : ℚ) : Reachable (initState t0)
  | step_update {s} (newSpeed newNoise : ℤ)
      (newReverseGear newHornActive newNavSpeaking : Bool) (newMode : Mode)
      (newControlType : VolumeControlType) (newManualVolume : ℤ) (now : ℚ) :
      Reachable s →
      Reachable (update s newSpeed newNoise newReverseGear newHornActive
        newNavSpeaking newMode newControlType newManualVolume now)
  | step_smooth {s} : Reachable s → Reachable (smoothVolumeTransition s)
  | step_printAndSmooth {s} (fuel : ℕ) :
      Reachable s → Reachable (printAndSmooth fuel s)

/-- As `Reachable`, but every `update` call uses the automatic
(`ADAPTIVE`) control policy. -/
inductive AutoReachable : AVCState → Prop where
  | init (t0 : ℚ) : AutoReachable (initState t0)
  | step_update {s} (newSpeed newNoise : ℤ)
      (newReverseGear newHornActive newNavSpeaking : Bool) (newMode : Mode)
      (newManualVolume : ℤ) (now : ℚ) :
      AutoReachable s →
      AutoReachable (update s newSpeed newNoise newReverseGear newHornActive
        newNavSpeaking newMode VolumeControlType.ADAPTIVE newManualVolume now)
  | step_smooth {s} : AutoReachable s → AutoReachable (smoothVolumeTransition s)
  | step_printAndSmooth {s} (fuel : ℕ) :
      AutoReachable s → AutoReachable (printAndSmooth fuel s)

/-! ### Frame lemmas: which fields each member function leaves untouched -/

@[simp] lemma handleHornDucking_speed (s : AVCState) (b : Bool) (t : ℚ) :
    (handleHornDucking s b t).speed = s.speed := by
  unfold handleHornDucking; split_ifs <;> rfl

@[simp] lemma handleHornDucking_previousSpeed (s : AVCState) (b : Bool) (t : ℚ) :
    (handleHornDucking s b t).previousSpeed = s.previousSpeed := by
  unfold handleHornDucking; split_ifs <;> rfl

@[simp] lemma handleHornDucking_cabinNoise (s : AVCState) (b : Bool) (t : ℚ) :
    (handleHornDucking s b t).cabinNoise = s.cabinNoise := by
  unfold handleHornDucking; split_ifs <;> rfl

@[simp] lemma handleHornDucking_reverseGear (s : AVCState) (b : Bool) (t : ℚ) :
    (handleHornDucking s b t).reverseGear = s.reverseGear := by
  unfold handleHornDucking; split_ifs <;> rfl

@[simp] lemma handleHornDucking_hornActive (s : AVCState) (b : Bool) (t : ℚ) :
    (handleHornDucking s b t).hornActive = s.hornActive := by
  unfold handleHornDucking; split_ifs <;> rfl

@[simp] lemma handleHornDucking_navSpeaking (s : AVCState) (b : Bool) (t : ℚ) :
    (handleHornDucking s b t).navSpeaking = s.navSpeaking := by
  unfold handleHornDucking; split_ifs <;> rfl

@[simp] lemma handleHornDucking_mode (s : AVCState) (b : Bool) (t : ℚ) :
    (handleHornDucking s b t).mode = s.mode := by
  unfold handleHornDucking; split_ifs <;> rfl

@[simp] lemma handleHornDucking_controlType (s : AVCState) (b : Bool) (t : ℚ) :
    (handleHornDucking s b t).controlType = s.controlType := by
  unfold handleHornDucking; split_ifs <;> rfl

@[simp] lemma handleHornDucking_manualVolume (s : AVCState) (b : Bool) (t : ℚ) :
    (handleHornDucking s b t).manualVolume = s.manualVolume := by
  unfold handleHornDucking; split_ifs <;> rfl

@[simp] lemma handleHornDucking_targetVolume (s : AVCState) (b : Bool) (t : ℚ) :
    (handleHornDucking s b t).targetVolume = s.targetVolume := by
  unfold handleHornDucking; split_ifs <;> rfl

@[simp] lemma handleHornDucking_currentVolume (s : AVCState) (b : Bool) (t : ℚ) :
    (handleHornDucking s b t).currentVolume = s.currentVolume := by
  unfold handleHornDucking; split_ifs <;> rfl

@[simp] lemma calculateTargetVolume_speed (s : AVCState) :
    (calculateTargetVolume s).speed = s.speed := by
  unfold calculateTargetVolume; split_ifs <;> rfl

@[simp] lemma calculateTargetVolume_previousSpeed (s : AVCState) :
    (calculateTargetVolume s).previousSpeed = s.previousSpeed := by
  unfold calculateTargetVolume; split_ifs <;> rfl

@[simp] lemma calculateTargetVolume_cabinNoise (s : AVCState) :
    (calculateTargetVolume s).cabinNoise = s.cabinNoise := by
  unfold calculateTargetVolume; split_ifs <;> rfl

@[simp] lemma calculateTargetVolume_reverseGear (s : AVCState) :
    (calculateTargetVolume s).reverseGear = s.reverseGear := by
  unfold calculateTargetVolume; split_ifs <;> rfl

@[simp] lemma calculateTargetVolume_hornActive (s : AVCState) :
    (calculateTargetVolume s).hornActive = s.hornActive := by
  unfold calculateTargetVolume; split_ifs <;> rfl

@[simp] lemma calculateTargetVolume_navSpeaking (s : AVCState) :
    (calculateTargetVolume s).navSpeaking = s.navSpeaking := by
  unfold calculateTargetVolume; split_ifs <;> rfl

@[simp] lemma calculateTargetVolume_mode (s : AVCState) :
    (calculateTargetVolume s).mode = s.mode := by
  unfold calculateTargetVolume; split_ifs <;> rfl

@[simp] lemma calculateTargetVolume_controlType (s : AVCState) :
    (calculateTargetVolume s).controlType = s.controlType := by
  unfold calculateTargetVolume; split_ifs <;> rfl

@[simp] lemma calculateTargetVolume_manualVolume (s : AVCState) :
    (calculateTargetVolume s).manualVolume = s.manualVolume := by
  unfold calculateTargetVolume; split_ifs <;> rfl

@[simp] lemma calculateTargetVolume_currentVolume (s : AVCState) :
    (calculateTargetVolume s).currentVolume = s.currentVolume := by
  unfold calculateTargetVolume; split_ifs <;> rfl

@[simp] lemma calculateTargetVolume_hornDuckActive (s : AVCState) :
    (calculateTargetVolume s).hornDuckActive = s.hornDuckActive := by
  unfold calculateTargetVolume; split_ifs <;> rfl

@[simp] lemma calculateTargetVolume_hornDuckStartTime (s : AVCState) :
    (calculateTargetVolume s).hornDuckStartTime = s.hornDuckStartTime := by
  unfold calculateTargetVolume; split_ifs <;> rfl

/-! ### The clamp keeps values inside `[MIN_VOLUME, MAX_ADAPTIVE_VOLUME]` -/

lemma clampVolume_nonneg (v : ℚ) : 0 ≤ clampVolume v := by
  simp only [clampVolume, MIN_VOLUME, MAX_ADAPTIVE_VOLUME]
  split_ifs <;> linarith

lemma clampVolume_le (v : ℚ) : clampVolume v ≤ 80 := by
  simp only [clampVolume, MIN_VOLUME, MAX_ADAPTIVE_VOLUME]
  split_ifs <;> linarith

/-- Under any non-`MANUAL` control type, `calculateTargetVolume` writes the
clamped modifier-pipeline output into `targetVolume`. -/
lemma calculateTargetVolume_targetVolume_adaptive (s : AVCState)
    (h : s.controlType = VolumeControlType.ADAPTIVE) :
    0 ≤ (calculateTargetVolume s).targetVolume ∧
      (calculateTargetVolume s).targetVolume ≤ 80 := by
  unfold calculateTargetVolume
  rw [if_neg (by rw [h]; exact fun hc => VolumeControlType.noConfusion hc)]
  exact ⟨clampVolume_nonneg _, clampVolume_le _⟩

/-- `update` produces, before target recomputation, a state whose snapshot
fields are the new inputs (`manualVolume` only when the new type is
`MANUAL`); all the later phases leave those fields alone. -/
lemma update_controlType (s : AVCState) (ns nn : ℤ) (rg ha nav : Bool)
    (m : Mode) (ct : VolumeControlType) (mv : ℤ) (now : ℚ) :
    (update s ns nn rg ha nav m ct mv now).controlType = ct := by
  by_cases h : ct = VolumeControlType.MANUAL <;>
    simp [update, handleNavigationDucking, h]

lemma update_currentVolume (s : AVCState) (ns nn : ℤ) (rg ha nav : Bool)
    (m : Mode) (ct : VolumeControlType) (mv : ℤ) (now : ℚ) :
    (update s ns nn rg ha nav m ct mv now).currentVolume = s.currentVolume := by
  by_cases h : ct = VolumeControlType.MANUAL <;>
    simp [update, handleNavigationDucking, h]

/-! ### Characterization of the ducking state after an `update` call -/

/-- Inside `update`, `handleHornDucking` runs on a state whose `hornActive`
field was already overwritten; when the new horn flag is `false` that field
is `false`, so the window start time is never touched. -/
lemma handleHornDucking_startTime_of_not_horn (s : AVCState) (now : ℚ)
    (h : s.hornActive = false) :
    (handleHornDucking s false now).hornDuckStartTime = s.hornDuckStartTime := by
  unfold handleHornDucking
  rw [if_neg (by simp), if_neg (by simp [h])]
  split_ifs <;> rfl

lemma handleHornDucking_active_of_not_horn (s : AVCState) (now : ℚ)
    (h : s.hornActive = false) :
    (handleHornDucking s false now).hornDuckActive =
      (if s.hornDuckActive then
        (if now - s.hornDuckStartTime ≥ HORN_DUCK_DURATION then false else true)
      else s.hornDuckActive) := by
  unfold handleHornDucking
  rw [if_neg (by simp), if_neg (by simp [h])]
  split_ifs <;> simp_all

/-- An `update` call whose new horn flag is `false` never resets the
ducking-window start time. -/
lemma update_startTime_of_not_horn (s : AVCState) (ns nn : ℤ) (rg nav : Bool)
    (m : Mode) (ct : VolumeControlType) (mv : ℤ) (now : ℚ) :
    (update s ns nn rg false nav m ct mv now).hornDuckStartTime
      = s.hornDuckStartTime := by
  by_cases hct : ct = VolumeControlType.MANUAL <;>
    simp [update, handleNavigationDucking, hct,
      handleHornDucking_startTime_of_not_horn]

/-- After an `update` call whose new horn flag is `false`, the ducking flag
is the lazily expired previous flag: still the old flag, except cleared when
the window measured from the *old* start time has elapsed. -/
lemma update_hornDuckActive_of_not_horn (s : AVCState) (ns nn : ℤ) (rg nav : Bool)
    (m : Mode) (ct : VolumeControlType) (mv : ℤ) (now : ℚ) :
    (update s ns nn rg false nav m ct mv now).hornDuckActive =
      (if s.hornDuckActive then
        (if now - s.hornDuckStartTime ≥ HORN_DUCK_DURATION then false else true)
      else s.hornDuckActive) := by
  by_cases hct : ct = VolumeControlType.MANUAL <;>
    simp [update, handleNavigationDucking, hct,
      handleHornDucking_active_of_not_horn]

/-- An `update` call whose new horn flag is `true` activates ducking and
resets the window start time to the sampled time. -/
lemma update_hornDuck_of_horn (s : AVCState) (ns nn : ℤ) (rg nav : Bool)
    (m : Mode) (ct : VolumeControlType) (mv : ℤ) (now : ℚ) :
    (update s ns nn rg true nav m ct mv now).hornDuckActive = true ∧
    (update s ns nn rg true nav m ct mv now).hornDuckStartTime = now := by
  by_cases hct : ct = VolumeControlType.MANUAL <;>
    simp [update, handleNavigationDucking, handleHornDucking, hct]

/-! ### Target bounds under the automatic policy -/

lemma update_adaptive_target_bounds (s : AVCState) (ns nn : ℤ) (rg ha nav : Bool)
    (m : Mode) (mv : ℤ) (now : ℚ) :
    0 ≤ (update s ns nn rg ha nav m VolumeControlType.ADAPTIVE mv now).targetVolume ∧
      (update s ns nn rg ha nav m VolumeControlType.ADAPTIVE mv now).targetVolume ≤ 80 := by
  refine calculateTargetVolume_targetVolume_adaptive _ ?_
  simp [handleNavigationDucking]

/-! ### Smoothing-step lemmas -/

lemma smoothVolumeTransition_targetVolume (s : AVCState) :
    (smoothVolumeTransition s).targetVolume = s.targetVolume := rfl

lemma smoothVolumeTransition_gap (s : AVCState) :
    (smoothVolumeTransition s).currentVolume - (smoothVolumeTransition s).targetVolume
      = (7/10) * (s.currentVolume - s.targetVolume) := by
  simp only [smoothVolumeTransition, SMOOTH_FACTOR]
  ring

lemma smoothVolumeTransition_abs_gap (s : AVCState) :
    |(smoothVolumeTransition s).currentVolume - (smoothVolumeTransition s).targetVolume|
      = (7/10) * |s.currentVolume - s.targetVolume| := by
  rw [smoothVolumeTransition_gap, abs_mul, abs_of_pos (by norm_num : (0:ℚ) < 7/10)]

lemma smooth_iterate_gap (n : ℕ) (s : AVCState) :
    (smoothVolumeTransition^[n] s).currentVolume - (smoothVolumeTransition^[n] s).targetVolume
      = (7/10)^n * (s.currentVolume - s.targetVolume) := by
  induction n with
  | zero => simp
  | succ n ih =>
    rw [Function.iterate_succ_apply', smoothVolumeTransition_gap, ih]
    ring

lemma exists_iterate_gap_le (s : AVCState) :
    ∃ n : ℕ, |(smoothVolumeTransition^[n] s).currentVolume
      - (smoothVolumeTransition^[n] s).targetVolume| ≤ 1/2 := by
  by_cases hg : |s.currentVolume - s.targetVolume| ≤ 1/2
  · exact ⟨0, by simpa using hg⟩
  · push_neg at hg
    have hgpos : 0 < |s.currentVolume - s.targetVolume| :=
      lt_trans (by norm_num) hg
    obtain ⟨n, hn⟩ := exists_pow_lt_of_lt_one
      (div_pos (by norm_num : (0:ℚ) < 1/2) hgpos) (by norm_num : (7/10 : ℚ) < 1)
    refine ⟨n, le_of_lt ?_⟩
    have habs : |(smoothVolumeTransition^[n] s).currentVolume
        - (smoothVolumeTransition^[n] s).targetVolume|
        = (7/10)^n * |s.currentVolume - s.targetVolume| := by
      rw [smooth_iterate_gap, abs_mul, abs_pow,
        abs_of_pos (by norm_num : (0:ℚ) < 7/10)]
    rw [habs]
    calc (7/10 : ℚ)^n * |s.currentVolume - s.targetVolume|
        < (1/2) / |s.currentVolume - s.targetVolume|
            * |s.currentVolume - s.targetVolume| :=
          mul_lt_mul_of_pos_right hn hgpos
      _ = 1/2 := div_mul_cancel₀ _ (ne_of_gt hgpos)

lemma printAndSmoothAux_targetVolume :
    ∀ (fuel : ℕ) (s : AVCState),
      (printAndSmoothAux fuel s).targetVolume = s.targetVolume
  | 0, _ => rfl
  | n + 1, s => by
    unfold printAndSmoothAux
    split_ifs
    · rw [printAndSmoothAux_targetVolume n (smoothVolumeTransition s)]
      rfl
    · rfl

lemma printAndSmooth_currentVolume (fuel : ℕ) (s : AVCState) :
    (printAndSmooth fuel s).currentVolume = (printAndSmooth fuel s).targetVolume ∧
      (printAndSmooth fuel s).targetVolume = s.targetVolume := by
  unfold printAndSmooth
  exact ⟨rfl, printAndSmoothAux_targetVolume fuel s⟩

/-! ### Claim theorems -/

/-- C1: the spec demands that a horn release (previous horn flag true, new
horn flag false) leave ducking active with the window start reset to the
time sampled in that call.  The code cannot do this: `update` overwrites
`hornActive` before calling `handleHornDucking`, so the release branch is
dead.  This theorem exhibits the divergence: (1) an `update` with new horn
flag `false` never changes the window start time; (2) concretely, after a
press at time 0, a release at time 1 even deactivates ducking outright. -/
theorem C1_horn_release_divergence :
    (∀ (s : AVCState) (ns nn : ℤ) (rg nav : Bool) (m : Mode)
        (ct : VolumeControlType) (mv : ℤ) (now : ℚ),
        (update s ns nn rg false nav m ct mv now).hornDuckStartTime
          = s.hornDuckStartTime) ∧
    (update (initState 0) 50 50 false true false Mode.COMFORT
        VolumeControlType.ADAPTIVE 0 0).hornActive = true ∧
    (update (update (initState 0) 50 50 false true false Mode.COMFORT
        VolumeControlType.ADAPTIVE 0 0)
        50 50 false false false Mode.COMFORT VolumeControlType.ADAPTIVE 0 1).hornDuckActive
      = false := by
  refine ⟨update_startTime_of_not_horn, ?_, ?_⟩
  · by_cases hct : (VolumeControlType.ADAPTIVE = VolumeControlType.MANUAL) <;>
      simp [update, handleNavigationDucking, hct]
  · rw [update_hornDuckActive_of_not_horn,
      (update_hornDuck_of_horn (initState 0) 50 50 false false Mode.COMFORT
        VolumeControlType.ADAPTIVE 0 0).1,
      (update_hornDuck_of_horn (initState 0) 50 50 false false Mode.COMFORT
        VolumeControlType.ADAPTIVE 0 0).2]
    norm_num [HORN_DUCK_DURATION]

/-- C2 counterexample: the claimed invariant "no reachable level is below
the floor under either policy" is false: one manual-policy update with
manual level -5 yields a reachable state with target -5 < 0. -/
theorem C2_counterexample_manual_negative :
    Reachable (update (initState 0) 0 0 false false false Mode.COMFORT
      VolumeControlType.MANUAL (-5) 0) ∧
    (update (initState 0) 0 0 false false false Mode.COMFORT
      VolumeControlType.MANUAL (-5) 0).targetVolume < 0 := by
  constructor
  · exact Reachable.step_update 0 0 false false false Mode.COMFORT
      VolumeControlType.MANUAL (-5) 0 (Reachable.init 0)
  · decide

/-- C2 (amended): for every engine state reachable when every update call
uses the automatic policy, both the target and the current level lie in the
closed range [0, 80] (floor 0, automatic ceiling 80).  Under manual policy
the lower bound fails (see the counterexample). -/
theorem C2_bounded_levels_auto (s : AVCState) (h : AutoReachable s) :
    0 ≤ s.targetVolume ∧ s.targetVolume ≤ 80 ∧
      0 ≤ s.currentVolume ∧ s.currentVolume ≤ 80 := by
  induction h with
  | init t0 => norm_num [initState, DEFAULT_VOLUME]
  | @step_update s ns nn rg ha nav m mv now h ih =>
    obtain ⟨h1, h2, h3, h4⟩ := ih
    refine ⟨(update_adaptive_target_bounds s ns nn rg ha nav m mv now).1,
      (update_adaptive_target_bounds s ns nn rg ha nav m mv now).2, ?_, ?_⟩ <;>
      rw [update_currentVolume] <;> assumption
  | @step_smooth s h ih =>
    obtain ⟨h1, h2, h3, h4⟩ := ih
    have hc : (smoothVolumeTransition s).currentVolume
        = s.currentVolume + (s.targetVolume - s.currentVolume) * (3/10) := rfl
    refine ⟨?_, ?_, ?_, ?_⟩
    · rw [smoothVolumeTransition_targetVolume]; exact h1
    · rw [smoothVolumeTransition_targetVolume]; exact h2
    · rw [hc]; linarith
    · rw [hc]; linarith
  | @step_printAndSmooth s fuel h ih =>
    obtain ⟨h1, h2, _, _⟩ := ih
    have hp := printAndSmooth_currentVolume fuel s
    exact ⟨by rw [hp.2]; exact h1, by rw [hp.2]; exact h2,
      by rw [hp.1, hp.2]; exact h1, by rw [hp.1, hp.2]; exact h2⟩

/-- C2 witness: the amended invariant applied to the freshly constructed
engine. -/
theorem C2_bounded_levels_auto_witness :
    0 ≤ (initState 0).targetVolume ∧ (initState 0).targetVolume ≤ 80 ∧
      0 ≤ (initState 0).currentVolume ∧ (initState 0).currentVolume ≤ 80 :=
  C2_bounded_levels_auto (initState 0) (AutoReachable.init 0)

/-- C3: every update call under the automatic policy — any prior state, any
flags/mode and any integer speed and noise values — produces a target level
in [0, 80]. -/
theorem C3_adaptive_target_in_range (s : AVCState) (ns nn : ℤ)
    (rg ha nav : Bool) (m : Mode) (mv : ℤ) (now : ℚ) :
    0 ≤ (update s ns nn rg ha nav m VolumeControlType.ADAPTIVE mv now).targetVolume ∧
      (update s ns nn rg ha nav m VolumeControlType.ADAPTIVE mv now).targetVolume ≤ 80 :=
  update_adaptive_target_bounds s ns nn rg ha nav m mv now

/-- C4: every update call under the manual policy with manual level `mv`
sets the target to `min mv 100`, regardless of all other inputs and of the
prior state (the whole modifier pipeline is bypassed). -/
theorem C4_manual_policy_target (s : AVCState) (ns nn : ℤ)
    (rg ha nav : Bool) (m : Mode) (mv : ℤ) (now : ℚ) :
    (update s ns nn rg ha nav m VolumeControlType.MANUAL mv now).targetVolume
      = min (mv : ℚ) 100 := by
  simp [update, handleNavigationDucking, calculateTargetVolume, MAX_VOLUME]

/-- C5: each convergence step moves the current level by the fraction
`SMOOTH_FACTOR = 0.3` of the remaining gap; the absolute gap scales by
exactly 7/10 per step, so it decreases strictly whenever it is nonzero and
monotonically in general; the step never overshoots the target from either
side; after finitely many steps the gap falls to at most the fixed epsilon
1/2, and the termination loop of `printAndSmooth` then sets the current
level exactly equal to the target. -/
theorem C5_smoothing_convergence :
    (∀ s : AVCState,
      (smoothVolumeTransition s).currentVolume
          = s.currentVolume + (s.targetVolume - s.currentVolume) * SMOOTH_FACTOR ∧
        (smoothVolumeTransition s).targetVolume = s.targetVolume) ∧
    (∀ s : AVCState,
      |(smoothVolumeTransition s).currentVolume - (smoothVolumeTransition s).targetVolume|
        = (7/10) * |s.currentVolume - s.targetVolume|) ∧
    (∀ s : AVCState, s.currentVolume ≠ s.targetVolume →
      |(smoothVolumeTransition s).currentVolume - (smoothVolumeTransition s).targetVolume|
        < |s.currentVolume - s.targetVolume|) ∧
    (∀ s : AVCState, s.currentVolume ≤ s.targetVolume →
      s.currentVolume ≤ (smoothVolumeTransition s).currentVolume ∧
        (smoothVolumeTransition s).currentVolume ≤ s.targetVolume) ∧
    (∀ s : AVCState, s.targetVolume ≤ s.currentVolume →
      s.targetVolume ≤ (smoothVolumeTransition s).currentVolume ∧
        (smoothVolumeTransition s).currentVolume ≤ s.currentVolume) ∧
    (∀ s : AVCState, ∃ n : ℕ,
      |(smoothVolumeTransition^[n] s).currentVolume
        - (smoothVolumeTransition^[n] s).targetVolume| ≤ 1/2) ∧
    (∀ (fuel : ℕ) (s : AVCState),
      (printAndSmooth fuel s).currentVolume = (printAndSmooth fuel s).targetVolume ∧
        (printAndSmooth fuel s).targetVolume = s.targetVolume) := by
  refine ⟨fun s => ⟨rfl, rfl⟩, smoothVolumeTransition_abs_gap,
    fun s hne => ?_, fun s hle => ?_, fun s hge => ?_,
    exists_iterate_gap_le, printAndSmooth_currentVolume⟩
  · rw [smoothVolumeTransition_abs_gap]
    have hpos : 0 < |s.currentVolume - s.targetVolume| :=
      abs_pos.mpr (sub_ne_zero.mpr hne)
    linarith
  · have hc : (smoothVolumeTransition s).currentVolume
        = s.currentVolume + (s.targetVolume - s.currentVolume) * (3/10) := rfl
    rw [hc]
    constructor <;> linarith
  · have hc : (smoothVolumeTransition s).currentVolume
        = s.currentVolume + (s.targetVolume - s.currentVolume) * (3/10) := rfl
    rw [hc]
    constructor <;> linarith

/-- C5 witness: the strict-decrease part applied at a concrete state with
current level 25 and target level 80. -/
theorem C5_smoothing_convergence_witness :
    |(smoothVolumeTransition { initState 0 with targetVolume := 80 }).currentVolume
        - (smoothVolumeTransition { initState 0 with targetVolume := 80 }).targetVolume|
      < |({ initState 0 with targetVolume := 80 } : AVCState).currentVolume
        - ({ initState 0 with targetVolume := 80 } : AVCState).targetVolume| :=
  C5_smoothing_convergence.2.2.1 _ (by decide)

/-- C6: with the reverse-gear flag set, the modifier pipeline is independent
of the speed fields (no deceleration check runs), and its value is the
horn-duck and navigation factors followed by the reverse factor 1/4 alone,
then the final clamp. -/
theorem C6_reverse_overrides_deceleration (s : AVCState) (b : ℚ) (ps sp : ℤ) :
    applyVolumeModifiersRaw { s with reverseGear := true, previousSpeed := ps, speed := sp } b
      = applyVolumeModifiersRaw { s with reverseGear := true } b ∧
    applyVolumeModifiersRaw { s with reverseGear := true } b
      = (if s.navSpeaking then
          (if s.hornDuckActive then b * HORN_DUCK_MULTIPLIER else b) * (1/2)
        else (if s.hornDuckActive then b * HORN_DUCK_MULTIPLIER else b)) * (1/4) ∧
    applyVolumeModifiers { s with reverseGear := true } b
      = clampVolume ((if s.navSpeaking then
          (if s.hornDuckActive then b * HORN_DUCK_MULTIPLIER else b) * (1/2)
        else (if s.hornDuckActive then b * HORN_DUCK_MULTIPLIER else b)) * (1/4)) := by
  refine ⟨?_, ?_, ?_⟩
  · simp [applyVolumeModifiersRaw]
  · simp [applyVolumeModifiersRaw]
  · simp [applyVolumeModifiers, applyVolumeModifiersRaw]

/-- C7: under automatic policy with reverse gear off, a speed drop greater
than 10 multiplies the running value by 1/2; a strictly positive drop of at
most 10 multiplies it by 9/10; a flat or increasing speed applies neither
factor. -/
theorem C7_deceleration_cases (s : AVCState) (b : ℚ) :
    (s.previousSpeed - s.speed > 10 →
      applyVolumeModifiersRaw { s with reverseGear := false } b
        = (if s.navSpeaking then
            (if s.hornDuckActive then b * HORN_DUCK_MULTIPLIER else b) * (1/2)
          else (if s.hornDuckActive then b * HORN_DUCK_MULTIPLIER else b)) * (1/2)) ∧
    (s.speed < s.previousSpeed → s.previousSpeed - s.speed ≤ 10 →
      applyVolumeModifiersRaw { s with reverseGear := false } b
        = (if s.navSpeaking then
            (if s.hornDuckActive then b * HORN_DUCK_MULTIPLIER else b) * (1/2)
          else (if s.hornDuckActive then b * HORN_DUCK_MULTIPLIER else b)) * (9/10)) ∧
    (s.previousSpeed ≤ s.speed →
      applyVolumeModifiersRaw { s with reverseGear := false } b
        = (if s.navSpeaking then
            (if s.hornDuckActive then b * HORN_DUCK_MULTIPLIER else b) * (1/2)
          else (if s.hornDuckActive then b * HORN_DUCK_MULTIPLIER else b))) := by
  refine ⟨fun h => ?_, fun h1 h2 => ?_, fun h => ?_⟩
  · simp [applyVolumeModifiersRaw, h]
  · have h3 : ¬(s.previousSpeed - s.speed > 10) := by omega
    simp [applyVolumeModifiersRaw, h1, h3]
  · have h3 : ¬(s.previousSpeed - s.speed > 10) := by omega
    have h4 : ¬(s.speed < s.previousSpeed) := by omega
    simp [applyVolumeModifiersRaw, h3, h4]

/-- C7 witness: the sudden-brake case applied at a concrete state (previous
speed 20, speed 5, no duck, no navigation) with base volume 40. -/
theorem C7_deceleration_cases_witness :
    applyVolumeModifiersRaw
        { ({ initState 0 with previousSpeed := 20, speed := 5 } : AVCState) with
          reverseGear := false } 40 = 20 := by
  have h := (C7_deceleration_cases
    ({ initState 0 with previousSpeed := 20, speed := 5 }) 40).1 (by decide)
  rw [show (20 : ℚ) = 40 * 2⁻¹ by norm_num]
  simpa [initState] using h

/-- C8: ducking active and navigation active compose multiplicatively: the
pre-clamp pipeline value with both flags set equals the horn-duck factor 0.6
times the navigation factor 1/2 times the pre-clamp value with both flags
clear, and the pipeline output is that product clamped. -/
theorem C8_duck_nav_compound (s : AVCState) (b : ℚ) :
    applyVolumeModifiersRaw { s with hornDuckActive := true, navSpeaking := true } b
      = HORN_DUCK_MULTIPLIER * ((1/2) *
        applyVolumeModifiersRaw { s with hornDuckActive := false, navSpeaking := false } b) ∧
    applyVolumeModifiers { s with hornDuckActive := true, navSpeaking := true } b
      = clampVolume (HORN_DUCK_MULTIPLIER * ((1/2) *
        applyVolumeModifiersRaw { s with hornDuckActive := false, navSpeaking := false } b)) := by
  have h : applyVolumeModifiersRaw { s with hornDuckActive := true, navSpeaking := true } b
      = HORN_DUCK_MULTIPLIER * ((1/2) *
        applyVolumeModifiersRaw { s with hornDuckActive := false, navSpeaking := false } b) := by
    simp only [applyVolumeModifiersRaw, HORN_DUCK_MULTIPLIER]
    split_ifs <;> simp_all <;> ring
  exact ⟨h, by rw [applyVolumeModifiers, h]⟩

/-- C9 counterexample: the freshly constructed engine has manual level 25,
not 0 as claimed. -/
theorem C9_counterexample_manualVolume : (initState 0).manualVolume ≠ 0 := by
  decide

/-- C9 (amended): the freshly constructed engine has previous speed 0,
speed 0, cabin noise 30 (the default ambient value), all event flags false,
comfort mode, automatic policy, manual level 25 (not 0), ducking inactive,
and current level = target level = 25. -/
theorem C9_initial_state (t0 : ℚ) :
    (initState t0).previousSpeed = 0 ∧ (initState t0).speed = 0 ∧
    (initState t0).cabinNoise = 30 ∧ (initState t0).reverseGear = false ∧
    (initState t0).hornActive = false ∧ (initState t0).navSpeaking = false ∧
    (initState t0).mode = Mode.COMFORT ∧
    (initState t0).controlType = VolumeControlType.ADAPTIVE ∧
    (initState t0).manualVolume = 25 ∧ (initState t0).hornDuckActive = false ∧
    (initState t0).currentVolume = 25 ∧ (initState t0).targetVolume = 25 := by
  refine ⟨rfl, rfl, rfl, rfl, rfl, rfl, rfl, rfl, rfl, rfl, rfl, rfl⟩

/-- C10 counterexample: an update under the automatic policy does not
overwrite the manual level with the new input (it stays at its prior value
25 although 99 was passed). -/
theorem C10_counterexample_manualVolume_retained :
    (update (initState 0) 0 0 false false false Mode.COMFORT
      VolumeControlType.ADAPTIVE 99 0).manualVolume ≠ 99 := by
  decide

/-- C10 (amended): every update call overwrites speed, previous speed (with
the prior speed), noise, the three event flags, mode and policy with the new
inputs unconditionally; the manual level is overwritten only when the new
policy is manual and is otherwise retained from the previous cycle. -/
theorem C10_update_overwrites_context (s : AVCState) (ns nn : ℤ)
    (rg ha nav : Bool) (m : Mode) (ct : VolumeControlType) (mv : ℤ) (now : ℚ) :
    (update s ns nn rg ha nav m ct mv now).speed = ns ∧
    (update s ns nn rg ha nav m ct mv now).previousSpeed = s.speed ∧
    (update s ns nn rg ha nav m ct mv now).cabinNoise = nn ∧
    (update s ns nn rg ha nav m ct mv now).reverseGear = rg ∧
    (update s ns nn rg ha nav m ct mv now).hornActive = ha ∧
    (update s ns nn rg ha nav m ct mv now).navSpeaking = nav ∧
    (update s ns nn rg ha nav m ct mv now).mode = m ∧
    (update s ns nn rg ha nav m ct mv now).controlType = ct ∧
    (update s ns nn rg ha nav m ct mv now).manualVolume
      = (if ct = VolumeControlType.MANUAL then mv else s.manualVolume) := by
  by_cases h : ct = VolumeControlType.MANUAL <;>
    simp [update, handleNavigationDucking, h]

end AVC
